import Mathlib

/-
Verification development for the valentine-surprise repository.

The embedded code comes from:
  * src/src/three/heartParticles.js — quality tiers (computeQuality), the
    assembly integrator in tick (damped-spring attraction of particles to
    heart targets, convergence detection), and the per-tick dt clamp.
  * src/src/ui/buttons.js — the hearts FX burst emitter (spawnBurst / tick)
    and the runaway NO button controller (createRunawayNo).
  * src/unnamed/part_000 — an alternative createRunawayNo implementation
    (no shrink state, with stuck-state random relocation), sharing the same
    hearts FX code.

JavaScript numbers are modelled by ℚ.  Division in ℚ is total (x / 0 = 0);
wherever the source divides, either the divisor is shown nonzero or a
checked-division (Option-valued) variant is provided (jsDiv / runDirChecked)
so that absence of NaN/Infinity is a theorem, not an artifact of totality.
Host math-library functions that are not rational (Math.hypot, Math.cos,
Math.sin) are passed in as function parameters; a theorem only ever assumes
values of these parameters that the real functions satisfy at the points the
code evaluates them.  getBoundingClientRect of the NO button is modelled as
the controller's own (left, top) plus a constant footprint (btnW, btnH)
supplied by the environment; CSS transition/transform rendering effects on
the rect are outside the model.
-/

namespace Valentine

/-! ## heartParticles.js: quality tiers (computeQuality, lines 42–49) -/

/-- Mirrors computeQuality: viewport width to (heartCount, starsCount).
Source: `if (w >= 1100) return {12000, 2200}; if (w >= 780) return {10000, 1700};
if (w >= 520) return {6500, 1200}; return {3800, 900}`. -/
def computeQuality (w : ℚ) : ℚ × ℚ :=
  if 1100 ≤ w then (12000, 2200)
  else if 780 ≤ w then (10000, 1700)
  else if 520 ≤ w then (6500, 1200)
  else (3800, 900)

/-! ## heartParticles.js: assembly integrator (tick, lines 280–343) -/

structure Vec3 where
  x : ℚ
  y : ℚ
  z : ℚ
deriving DecidableEq

def Vec3.add (a b : Vec3) : Vec3 := ⟨a.x + b.x, a.y + b.y, a.z + b.z⟩

def Vec3.sub (a b : Vec3) : Vec3 := ⟨a.x - b.x, a.y - b.y, a.z - b.z⟩

/-- Right scalar multiple, matching the source's `d * strength * dt` shape. -/
def Vec3.smul (a : Vec3) (c : ℚ) : Vec3 := ⟨a.x * c, a.y * c, a.z * c⟩

/-- Per-axis absolute error contribution `|dx| + |dy| + |dz|`. -/
def Vec3.l1 (a : Vec3) : ℚ := |a.x| + |a.y| + |a.z|

structure HeartParticle where
  pos : Vec3
  vel : Vec3
  target : Vec3
deriving DecidableEq

structure HeartState where
  parts : List HeartParticle
  assembled : Bool
  assembleAmount : ℚ
deriving DecidableEq

/-- One particle update of the assembly loop body (heartParticles.js 305–334):
`velocities[ix] = (velocities[ix] + d*strength*dt) * 0.86` and
`currentPositions[ix] = p + v + d * 0.0022 * assembleAmount`. -/
def stepParticle (strength dt amount : ℚ) (p : HeartParticle) : HeartParticle :=
  let d := p.target.sub p.pos
  let v := (p.vel.add (d.smul (strength * dt))).smul (86/100)
  { pos := (p.pos.add v).add (d.smul ((22/10000) * amount)), vel := v, target := p.target }

/-- `avgDist / quality.heartCount` of heartParticles.js 333–339, computed from
the pre-step positions exactly as the loop does. -/
def meanError (s : HeartState) : ℚ :=
  (s.parts.map (fun p => (p.target.sub p.pos).l1)).sum / s.parts.length

/-- The `if (!assembled) { ... }` physics block of tick with the step's `dt`:
advance assembleAmount by `dt * 0.22` clamped at 1, update every particle,
and set `assembled` when `assembleAmount > 0.98 && mean < 0.09`. -/
def integratorStep (s : HeartState) (dt : ℚ) : HeartState :=
  if s.assembled then s
  else
    let amount := min (s.assembleAmount + dt * (22/100)) 1
    let strength := 42/10 + amount * 10
    let merr := meanError s
    { parts := s.parts.map (stepParticle strength dt amount),
      assembled := decide (98/100 < amount ∧ merr < 9/100),
      assembleAmount := amount }

/-- Both tick functions compute `dt = Math.min((now - lastT) / 1000, 0.033)`
(heartParticles.js 281, buttons.js 342). -/
def computeDt (now lastT : ℚ) : ℚ := min ((now - lastT) / 1000) (33/1000)

/-- One heart-scene frame as driven by the clock: tick(now) with stored lastT. -/
def heartTick (s : HeartState) (now lastT : ℚ) : HeartState :=
  integratorStep s (computeDt now lastT)

/-! ## buttons.js / part_000: hearts FX burst emitter (createHeartsFx)

The two copies of createHeartsFx (buttons.js 277–388 and part_000 221–339)
have identical spawnBurst and tick bodies; one embedding covers both. -/

/-- One burst particle; all fields of the object pushed by spawnBurst. -/
structure Heart2 where
  x : ℚ
  y : ℚ
  vx : ℚ
  vy : ℚ
  g : ℚ
  size : ℚ
  rot : ℚ
  vr : ℚ
  life : ℚ
  t : ℚ
  hue : ℚ
  sat : ℚ
  lit : ℚ
  alpha : ℚ
deriving DecidableEq

/-- `rand(min, max) = min + Math.random() * (max - min)` with the draw u. -/
def randIn (lo hi u : ℚ) : ℚ := lo + u * (hi - lo)

/-- The particle pushed by one spawnBurst loop iteration.  `u k` is the k-th
Math.random() draw of the iteration.  The angle draw is u 0; since the angle
`-π + u 0 * 2π` is irrational, the host's Math.cos/Math.sin composed with the
angle map are abstracted as cosA/sinA applied to the draw u 0 itself. -/
def mkHeart (w h : ℚ) (cx cy : Option ℚ) (cosA sinA : ℚ → ℚ) (u : ℕ → ℚ) : Heart2 :=
  let speed := randIn 260 820 (u 1)
  { x := cx.getD (w * (1/2))
    y := cy.getD (h * (55/100))
    vx := cosA (u 0) * speed
    vy := sinA (u 0) * speed - randIn 80 250 (u 2)
    g := randIn 520 920 (u 3)
    size := randIn 6 14 (u 4)
    rot := randIn (-(22/10)) (22/10) (u 5)
    vr := randIn (-(45/10)) (45/10) (u 6)
    life := randIn (9/10) (27/20) (u 7)
    t := 0
    hue := randIn 330 355 (u 8)
    sat := randIn 75 95 (u 9)
    lit := randIn 58 70 (u 10)
    alpha := randIn (7/10) 1 (u 11) }

/-- spawnBurst(cx, cy, count): pushes count particles, consuming 12 random
draws each; `rng` is the stream of Math.random() values in order. -/
def spawnBurst (w h : ℚ) (cx cy : Option ℚ) (count : ℕ)
    (cosA sinA : ℚ → ℚ) (rng : ℕ → ℚ) : List Heart2 :=
  (List.range count).map (fun i => mkHeart w h cx cy cosA sinA (fun k => rng (12 * i + k)))

/-- The per-particle update of the FX tick loop: `p.t += dt; p.vy += p.g*dt;
p.x += p.vx*dt; p.y += p.vy*dt; p.rot += p.vr*dt` (semi-implicit: y uses the
updated vy). -/
def advanceHeart (dt : ℚ) (p : Heart2) : Heart2 :=
  let vy := p.vy + p.g * dt
  { p with
    t := p.t + dt
    vy := vy
    x := p.x + p.vx * dt
    y := p.y + vy * dt
    rot := p.rot + p.vr * dt }

/-- The removal test of the FX tick: `fade <= 0 || p.y > h + 120 ||
p.x < -140 || p.x > w + 140` with `fade = 1 - p.t / p.life`, evaluated on the
already-advanced particle. -/
def heartRemoved (w h : ℚ) (p : Heart2) : Bool :=
  decide (1 - p.t / p.life ≤ 0) || decide (h + 120 < p.y) ||
  decide (p.x < -140) || decide (w + 140 < p.x)

/-- One FX tick over the live set with the step's `dt`: advance every particle
and splice out the removed ones (backward iteration with splice is
order-preserving filtering). -/
def fxTick (w h dt : ℚ) (hs : List Heart2) : List Heart2 :=
  hs.filterMap (fun p =>
    let q := advanceHeart dt p
    if heartRemoved w h q then none else some q)

/-- n consecutive FX ticks with a fixed per-step dt. -/
def fxSteps (w h dt : ℚ) : ℕ → List Heart2 → List Heart2
  | 0, hs => hs
  | n + 1, hs => fxSteps w h dt n (fxTick w h dt hs)

/-- The emitter is empty exactly when its particle set is (hearts.length = 0,
the condition under which the tick loop stops re-scheduling itself). -/
def fxIsEmpty (hs : List Heart2) : Bool := hs.isEmpty

/-- One FX frame as driven by the clock, with the source's dt clamp. -/
def fxTickTimed (w h now lastT : ℚ) (hs : List Heart2) : List Heart2 :=
  fxTick w h (computeDt now lastT) hs

/-! ## buttons.js: runaway NO controller (createRunawayNo, lines 82–271) -/

/-- Constants the controller reads from the page: the button's layout rect
(position before pinning, and its footprint) and the viewport size. -/
structure Env where
  layoutLeft : ℚ
  layoutTop : ℚ
  btnW : ℚ
  btnH : ℚ
  vw : ℚ
  vh : ℚ
deriving DecidableEq

/-- The closure state of createRunawayNo: isFixed, hidden, left, top, scale,
lastMove. -/
structure NoState where
  isFixed : Bool
  hidden : Bool
  left : ℚ
  top : ℚ
  scale : ℚ
  lastMove : ℚ
deriving DecidableEq

/-- Initial closure values: `isFixed = false, hidden = false, left = 0,
top = 0, scale = 1.0, lastMove = 0`. -/
def initialNo : NoState :=
  { isFixed := false, hidden := false, left := 0, top := 0, scale := 1, lastMove := 0 }

/-- `clamp(v, min, max) = Math.max(min, Math.min(max, v))`. -/
def clampQ (v lo hi : ℚ) : ℚ := max lo (min hi v)

structure RectQ where
  left : ℚ
  top : ℚ
  width : ℚ
  height : ℚ
deriving DecidableEq

/-- getBoundingClientRect of the NO button: at its fixed (left, top) once
pinned, at its layout spot otherwise; footprint from the environment. -/
def getRect (env : Env) (s : NoState) : RectQ :=
  if s.isFixed then ⟨s.left, s.top, env.btnW, env.btnH⟩
  else ⟨env.layoutLeft, env.layoutTop, env.btnW, env.btnH⟩

structure BoundsQ where
  minL : ℚ
  maxL : ℚ
  minT : ℚ
  maxT : ℚ
deriving DecidableEq

/-- boundsForRect: padding 12 on every side of the viewport, minus the
button's own footprint on the max side. -/
def boundsForRect (env : Env) (r : RectQ) : BoundsQ :=
  ⟨12, env.vw - r.width - 12, 12, env.vh - r.height - 12⟩

/-- makeFixedIfNeeded: pin the button at its current layout rect position
(no-op when already fixed or hidden). -/
def makeFixedIfNeeded (env : Env) (s : NoState) : NoState :=
  if s.isFixed || s.hidden then s
  else { s with isFixed := true, left := env.layoutLeft, top := env.layoutTop }

/-- shrinkHover: `scale = Math.max(minScale, scale * hoverShrink)` with
minScale 0.55 and hoverShrink 0.90; no-op when hidden. -/
def shrinkHover (s : NoState) : NoState :=
  if s.hidden then s else { s with scale := max (55/100) (s.scale * (90/100)) }

/-- shrinkPress: like shrinkHover with pressShrink 0.85. -/
def shrinkPress (s : NoState) : NoState :=
  if s.hidden then s else { s with scale := max (55/100) (s.scale * (85/100)) }

/-- hide(): sets hidden (display changes are rendering, not state). -/
def hideNo (s : NoState) : NoState := { s with hidden := true }

/-- restore(): returns the button to layout flow (isFixed = false), clears
hidden, and resetScale() sets scale back to 1.0. -/
def restoreNo (s : NoState) : NoState :=
  { s with hidden := false, isFixed := false, scale := 1 }

/-- reclamp(): no-op unless fixed and not hidden; re-clamps (left, top) into
the current bounds. -/
def reclamp (env : Env) (s : NoState) : NoState :=
  if s.isFixed = false ∨ s.hidden = true then s
  else
    let b := boundsForRect env (getRect env s)
    { s with left := clampQ s.left b.minL b.maxL, top := clampQ s.top b.minT b.maxT }

/-- The jitter applied to each direction component:
`d += (Math.random() * 2 - 1) * 0.35` with draw r. -/
def jitterDir (d r : ℚ) : ℚ := d + (r * 2 - 1) * (35/100)

/-- The pre-jitter escape direction `(dx0 / (dist || 1), dy0 / (dist || 1))`
where `dist = Math.hypot(dx0, dy0)` is supplied through the abstract `hyp`;
`dist || 1` substitutes 1 exactly when dist is zero. -/
def preJitterDir (hyp : ℚ → ℚ → ℚ) (dx0 dy0 : ℚ) : ℚ × ℚ :=
  let dist := hyp dx0 dy0
  (dx0 / (if dist = 0 then 1 else dist), dy0 / (if dist = 0 then 1 else dist))

/-- runAwayFrom(px, py, force) of buttons.js, called at clock time `now` with
jitter draws r1, r2.  `hyp` abstracts Math.hypot. -/
def runAwayFrom (env : Env) (hyp : ℚ → ℚ → ℚ) (px py : ℚ) (force : Bool)
    (now r1 r2 : ℚ) (s : NoState) : NoState :=
  if s.hidden then s
  else if force = false ∧ now - s.lastMove < 120 then s
  else
    let s1 : NoState := { s with lastMove := now }
    let s2 := makeFixedIfNeeded env s1
    let rect := getRect env s2
    let cx := rect.left + rect.width / 2
    let cy := rect.top + rect.height / 2
    let dx0 := cx - px
    let dy0 := cy - py
    let dist := hyp dx0 dy0
    let dangerRadius := max 120 (min 210 (rect.width * 2))
    if force = false ∧ dangerRadius < dist then s2
    else
      let d1 := preJitterDir hyp dx0 dy0
      let dx2 := jitterDir d1.1 r1
      let dy2 := jitterDir d1.2 r2
      let len := max (hyp dx2 dy2) (1/10000)
      let dx := dx2 / len
      let dy := dy2 / len
      let step := min 280 (max 160 (env.vw * (24/100)))
      let b := boundsForRect env rect
      { s2 with left := clampQ (s2.left + dx * step) b.minL b.maxL,
                top := clampQ (s2.top + dy * step) b.minT b.maxT }

/-- The direction pipeline of runAwayFrom (normalize, jitter, renormalize)
with its two division sites checked: none stands for the NaN/Infinity a zero
divisor would produce.  Both components of each normalization share one
divisor, so one check per site covers both divisions of the source. -/
def runDirChecked (hyp : ℚ → ℚ → ℚ) (dx0 dy0 r1 r2 : ℚ) : Option (ℚ × ℚ) :=
  let dist := hyp dx0 dy0
  let den := if dist = 0 then 1 else dist
  if den = 0 then none
  else
    let dx2 := jitterDir (dx0 / den) r1
    let dy2 := jitterDir (dy0 / den) r2
    let len := max (hyp dx2 dy2) (1/10000)
    if len = 0 then none else some (dx2 / len, dy2 / len)

end Valentine

/-! ## part_000: the alternative createRunawayNo (lines 87–218) -/

namespace Valentine.P0

/-- Closure state of part_000's createRunawayNo: no hidden/scale fields. -/
structure NoState where
  isFixed : Bool
  left : ℚ
  top : ℚ
  lastMove : ℚ
deriving DecidableEq

/-- runAwayFrom of part_000: throttle, lastMove update, modal-open bail-out,
pinning, danger radius (cap 200), jittered step (cap 270), bounds clamp, and
the stuck-state recovery `if (|dx0| < 1 && |dy0| < 1) relocate randomly`.
r1, r2 are the jitter draws; r3, r4 the relocation draws. -/
def runAwayFrom (env : Valentine.Env) (hyp : ℚ → ℚ → ℚ) (px py : ℚ)
    (force : Bool) (now : ℚ) (modalOpen : Bool) (r1 r2 r3 r4 : ℚ)
    (s : NoState) : NoState :=
  if force = false ∧ now - s.lastMove < 120 then s
  else
    let s1 : NoState := { s with lastMove := now }
    if modalOpen then s1
    else
      let s2 : NoState :=
        if s1.isFixed then s1
        else { s1 with isFixed := true, left := env.layoutLeft, top := env.layoutTop }
      let rect : Valentine.RectQ := ⟨s2.left, s2.top, env.btnW, env.btnH⟩
      let cx := rect.left + rect.width / 2
      let cy := rect.top + rect.height / 2
      let dx0 := cx - px
      let dy0 := cy - py
      let dist := hyp dx0 dy0
      let dangerRadius := max 120 (min 200 (rect.width * 2))
      if force = false ∧ dangerRadius < dist then s2
      else
        let d1 := Valentine.preJitterDir hyp dx0 dy0
        let dx2 := Valentine.jitterDir d1.1 r1
        let dy2 := Valentine.jitterDir d1.2 r2
        let len := max (hyp dx2 dy2) (1/10000)
        let dx := dx2 / len
        let dy := dy2 / len
        let step := min 270 (max 160 (env.vw * (24/100)))
        let b := Valentine.boundsForRect env rect
        let leftD := Valentine.clampQ (s2.left + dx * step) b.minL b.maxL
        let topD := Valentine.clampQ (s2.top + dy * step) b.minT b.maxT
        if |dx0| < 1 ∧ |dy0| < 1 then
          { s2 with
            left := Valentine.clampQ (r3 * (b.maxL - b.minL) + b.minL) b.minL b.maxL,
            top := Valentine.clampQ (r4 * (b.maxT - b.minT) + b.minT) b.minT b.maxT }
        else { s2 with left := leftD, top := topD }

end Valentine.P0

namespace Valentine

/-! ## Concrete instances used by witnesses and counterexamples -/

/-- A concrete stand-in for Math.hypot.  Every concrete run below only
evaluates it at points where at least one argument is 0, where |a| + |b|
agrees with the real Math.hypot. -/
def exHyp : ℚ → ℚ → ℚ := fun a b => |a| + |b|

/-- A 1000×600 viewport with the NO button's 80×40 footprint laid out at
(100, 100). -/
def exEnv : Env := ⟨100, 100, 80, 40, 1000, 600⟩

/-- NO button already pinned, at rest at (500, 300), scale 1, lastMove 0. -/
def exPinned : NoState :=
  { isFixed := true, hidden := false, left := 500, top := 300, scale := 1, lastMove := 0 }

/-- A heart particle sitting exactly on its target at the origin. -/
def cPart : HeartParticle := ⟨⟨0, 0, 0⟩, ⟨0, 0, 0⟩, ⟨0, 0, 0⟩⟩

/-- Assembly state one 0.01 s step away from reaching progress exactly 0.98
(0.9778 + 0.01 · 0.22 = 0.98). -/
def cState : HeartState := ⟨[cPart], false, 4889/5000⟩

/-- A burst particle far above the top edge of the viewport. -/
def topP : Heart2 :=
  { x := 0, y := -10050, vx := 0, vy := -10, g := 600, size := 8, rot := 0, vr := 0,
    life := 1, t := 0, hue := 340, sat := 80, lit := 60, alpha := 1 }

/-- part_000 controller already pinned at (500, 300). -/
def p0Pinned : P0.NoState := { isFixed := true, left := 500, top := 300, lastMove := 0 }

/-- The all-zero Math.random() stream. -/
def zeroStream : ℕ → ℚ := fun _ => 0

/-- The constantly-zero stand-in for the abstracted trig functions. -/
def zeroFun : ℚ → ℚ := fun _ => 0

/-- The spec's scale invariant: scale ∈ [minScale, 1.0] with minScale 0.55. -/
def scaleInv (s : NoState) : Prop := 55/100 ≤ s.scale ∧ s.scale ≤ 1

/-! ## Claim theorems -/

/-- Claim C1: for every particle of a not-yet-converged assembly, one
integrator step with elapsed time dt yields velocity' = (velocity +
d · strength · dt) · 0.86 and position' = position + velocity' +
d · 0.0022 · progress, where d = target − position, strength = 4.2 +
progress · 10.0 and progress is the old progress advanced by 0.22 · dt,
clamped at 1. -/
theorem claim1_step_law (s : HeartState) (dt : ℚ) (i : ℕ) (p : HeartParticle)
    (hna : s.assembled = false) (hp : s.parts[i]? = some p) :
    (integratorStep s dt).assembleAmount = min (s.assembleAmount + dt * (22/100)) 1 ∧
    (integratorStep s dt).parts[i]? =
      some
        { pos :=
            (p.pos.add
              ((p.vel.add ((p.target.sub p.pos).smul
                ((42/10 + min (s.assembleAmount + dt * (22/100)) 1 * 10) * dt))).smul
                  (86/100))).add
              ((p.target.sub p.pos).smul
                ((22/10000) * min (s.assembleAmount + dt * (22/100)) 1))
          vel :=
            (p.vel.add ((p.target.sub p.pos).smul
              ((42/10 + min (s.assembleAmount + dt * (22/100)) 1 * 10) * dt))).smul (86/100)
          target := p.target } := by
  constructor
  · simp [integratorStep, hna]
  · simp [integratorStep, hna, List.getElem?_map, hp, stepParticle]

/-- Witness for claim1_step_law at the one-particle state cState. -/
theorem claim1_step_law_witness :
    (integratorStep cState (1/100)).assembleAmount =
      min (cState.assembleAmount + (1/100) * (22/100)) 1 :=
  (claim1_step_law cState (1/100) 0 cPart rfl rfl).1

/-- Claim C2 (amended): after a step of a not-yet-converged assembly, the
assembly is converged iff the advanced progress is strictly greater than
0.98 and the mean absolute per-axis error (computed by the step) is below
0.09; once converged, the integrator step changes nothing until rebuild. -/
theorem claim2_convergence (s : HeartState) (dt : ℚ) :
    (s.assembled = false →
      ((integratorStep s dt).assembled = true ↔
        98/100 < min (s.assembleAmount + dt * (22/100)) 1 ∧ meanError s < 9/100)) ∧
    (s.assembled = true → integratorStep s dt = s) := by
  constructor
  · intro h
    simp [integratorStep, h]
  · intro h
    simp [integratorStep, h]

/-- Witness for claim2_convergence at cState. -/
theorem claim2_convergence_witness :
    (integratorStep cState 1).assembled = true ↔
      98/100 < min (cState.assembleAmount + 1 * (22/100)) 1 ∧ meanError cState < 9/100 :=
  (claim2_convergence cState 1).1 rfl

/-- Counterexample to claim C2 as stated: from progress 0.9778 a step of
dt = 0.01 reaches progress exactly 0.98 with mean error 0 < 0.09 (before and
after the step), yet the code's strict test `assembleAmount > 0.98` leaves
the assembly not converged, against the claim's `progress >= 0.98`. -/
theorem claim2_counterexample :
    98/100 ≤ (integratorStep cState (1/100)).assembleAmount ∧
    meanError cState < 9/100 ∧
    meanError (integratorStep cState (1/100)) < 9/100 ∧
    (integratorStep cState (1/100)).assembled = false := by
  refine ⟨?_, ?_, ?_, ?_⟩ <;>
    norm_num [integratorStep, meanError, cState, cPart, stepParticle,
      Vec3.sub, Vec3.add, Vec3.smul, Vec3.l1, min_def]

/-- Claim C3: quality-tier selection is a monotone step function of viewport
width; it has the four tiers 3800, 6500, 10000, 12000 primary particles;
width 1200 gets at least 10000 and width 400 gets the smallest tier, which
has fewer than 4000. -/
theorem claim3_quality_tiers :
    (∀ w1 w2 : ℚ, w1 ≤ w2 → (computeQuality w1).1 ≤ (computeQuality w2).1) ∧
    10000 ≤ (computeQuality 1200).1 ∧
    (computeQuality 400).1 < 4000 ∧
    (∀ w : ℚ, (computeQuality 400).1 ≤ (computeQuality w).1) ∧
    (computeQuality 400).1 = 3800 ∧ (computeQuality 600).1 = 6500 ∧
    (computeQuality 900).1 = 10000 ∧ (computeQuality 1200).1 = 12000 := by
  refine ⟨?_, ?_, ?_, ?_, ?_, ?_, ?_, ?_⟩
  · intro w1 w2 h
    unfold computeQuality
    split_ifs <;> norm_num <;> linarith
  · norm_num [computeQuality]
  · norm_num [computeQuality]
  · intro w
    unfold computeQuality
    split_ifs <;> norm_num <;> linarith
  · norm_num [computeQuality]
  · norm_num [computeQuality]
  · norm_num [computeQuality]
  · norm_num [computeQuality]

/-- Witness for claim3_quality_tiers: monotonicity applied at 400 ≤ 1200. -/
theorem claim3_quality_tiers_witness :
    (computeQuality 400).1 ≤ (computeQuality 1200).1 :=
  claim3_quality_tiers.1 400 1200 (by norm_num)

/-- Counterexample to claim C9 as stated: the source integrators do clamp
dt.  An elapsed gap of 20 seconds (e.g. a backgrounded tab) produces
dt = 0.033, not 20. -/
theorem claim9_counterexample :
    computeDt 20000 0 = 33/1000 ∧ computeDt 20000 0 < (20000 - 0) / 1000 := by
  constructor
  · norm_num [computeDt, min_def]
  · norm_num [computeDt, min_def]

/-- Claim C9 (amended): both tick functions clamp the per-tick dt to at most
0.033 s, so an abnormally large elapsed time cannot enter the integration. -/
theorem claim9_amended_dt_clamped (now lastT : ℚ) : computeDt now lastT ≤ 33/1000 :=
  min_le_right _ _

/-- Claim C5 (amended): in the part_000 controller, a forced onThreat whose
threat point is exactly the pinned object's center takes the stuck-state
path and relocates the object to the uniformly random in-bounds position
drawn from r3, r4; the buttons.js controller has no such path (see the
counterexample). -/
theorem claim5_stuck_relocation (env : Env) (hyp : ℚ → ℚ → ℚ)
    (now r1 r2 r3 r4 : ℚ) (s : P0.NoState) (hfix : s.isFixed = true) :
    P0.runAwayFrom env hyp (s.left + env.btnW / 2) (s.top + env.btnH / 2)
      true now false r1 r2 r3 r4 s =
    { s with
      lastMove := now
      left := clampQ (r3 * ((env.vw - env.btnW - 12) - 12) + 12) 12 (env.vw - env.btnW - 12)
      top := clampQ (r4 * ((env.vh - env.btnH - 12) - 12) + 12) 12 (env.vh - env.btnH - 12) } := by
  unfold P0.runAwayFrom
  simp [hfix, boundsForRect, abs_lt]

/-- Witness for claim5_stuck_relocation with the pinned state p0Pinned in
the 1000×600 viewport and relocation draws 1/4, 3/4. -/
theorem claim5_stuck_relocation_witness :
    P0.runAwayFrom exEnv exHyp (p0Pinned.left + exEnv.btnW / 2)
      (p0Pinned.top + exEnv.btnH / 2) true 1000 false (1/2) (1/2) (1/4) (3/4) p0Pinned =
    { p0Pinned with
      lastMove := 1000
      left := clampQ ((1/4) * ((exEnv.vw - exEnv.btnW - 12) - 12) + 12) 12
        (exEnv.vw - exEnv.btnW - 12)
      top := clampQ ((3/4) * ((exEnv.vh - exEnv.btnH - 12) - 12) + 12) 12
        (exEnv.vh - exEnv.btnH - 12) } :=
  claim5_stuck_relocation exEnv exHyp 1000 (1/2) (1/2) (1/4) (3/4) p0Pinned rfl

/-- Counterexample to claim C5 as stated: the buttons.js controller has no
stuck-state recovery.  A forced onThreat at the pinned button's exact center
(540, 320) with both jitter draws equal to 1/2 (zero jitter) leaves the
position at (500, 300): a zero-length move, not a random relocation.  exHyp
agrees with Math.hypot at every point this run evaluates it (only (0, 0)). -/
theorem claim5_counterexample :
    runAwayFrom exEnv exHyp 540 320 true 1000 (1/2) (1/2) exPinned =
      { exPinned with lastMove := 1000 } ∧
    540 = exPinned.left + exEnv.btnW / 2 ∧ 320 = exPinned.top + exEnv.btnH / 2 := by
  refine ⟨?_, by norm_num [exPinned, exEnv], by norm_num [exPinned, exEnv]⟩
  norm_num [runAwayFrom, exPinned, exEnv, exHyp, makeFixedIfNeeded, getRect,
    boundsForRect, clampQ, preJitterDir, jitterDir, min_def, max_def]

/-- Claim C6 (amended): at zero threat-to-center distance the `dist || 1`
guard divides by 1, so the pre-jitter escape direction equals the raw
offset — the zero vector when the threat coincides with the center, not a
unit vector — and no division by zero (hence no NaN or Infinity) can occur
anywhere in the direction pipeline. -/
theorem claim6_no_nan (hyp : ℚ → ℚ → ℚ) (dx0 dy0 r1 r2 : ℚ) :
    (runDirChecked hyp dx0 dy0 r1 r2).isSome = true ∧
    (hyp dx0 dy0 = 0 → preJitterDir hyp dx0 dy0 = (dx0, dy0)) := by
  constructor
  · have hmax : ∀ a b : ℚ, ¬ (max (hyp a b) ((1:ℚ)/10000) = 0) := fun a b =>
      ne_of_gt (lt_of_lt_of_le (by norm_num) (le_max_right _ _))
    simp only [runDirChecked]
    split_ifs with h1 h2 h3 h4
    · exact absurd h2 (by norm_num)
    · exact absurd h3 (hmax _ _)
    · rfl
    · exact absurd h4 (hmax _ _)
    · rfl
  · intro h
    simp [preJitterDir, h]

/-- Witness for claim6_no_nan: the zero-distance case at the concrete
stand-in exHyp yields the zero direction. -/
theorem claim6_no_nan_witness : preJitterDir exHyp 0 0 = (0, 0) :=
  (claim6_no_nan exHyp 0 0 0 0).2 (by norm_num [exHyp])

/-- Counterexample to claim C6 as stated: the zero-distance default is the
zero vector (squared norm 0), not a fixed unit vector. -/
theorem claim6_counterexample :
    preJitterDir exHyp 0 0 = (0, 0) ∧
    ¬ ((preJitterDir exHyp 0 0).1 ^ 2 + (preJitterDir exHyp 0 0).2 ^ 2 = 1) := by
  norm_num [preJitterDir, exHyp]

/-- Claim C7 (amended): a non-forced event within 120 ms of the last
throttle-passing event is discarded with no state change at all, and every
event that passes the throttle — forced or not, even if the danger-radius
test then discards it without moving the button — sets lastMove to its own
time: the cooldown window is measured from throttle-passing events, not
only from accepted (position-changing) ones. -/
theorem claim7_throttle (env : Env) (hyp : ℚ → ℚ → ℚ) (px py now r1 r2 : ℚ)
    (s : NoState) (hhid : s.hidden = false) :
    (now - s.lastMove < 120 → runAwayFrom env hyp px py false now r1 r2 s = s) ∧
    (∀ f : Bool, (runAwayFrom env hyp px py f now r1 r2 s).lastMove = now ∨
      runAwayFrom env hyp px py f now r1 r2 s = s) := by
  have hlm : ∀ s' : NoState, (makeFixedIfNeeded env s').lastMove = s'.lastMove := by
    intro s'
    unfold makeFixedIfNeeded
    split_ifs <;> rfl
  constructor
  · intro h
    simp [runAwayFrom, hhid, h]
  · intro f
    by_cases hthr : f = false ∧ now - s.lastMove < 120
    · right
      simp [runAwayFrom, hhid, hthr]
    · left
      unfold runAwayFrom
      simp only [hhid, Bool.false_eq_true, if_false, hthr]
      split_ifs <;> simp [hlm]

/-- Witness for claim7_throttle: a non-forced event 50 ms after the last
accepted one leaves the pinned state untouched. -/
theorem claim7_throttle_witness :
    runAwayFrom exEnv exHyp 0 0 false 50 0 0 exPinned = exPinned :=
  (claim7_throttle exEnv exHyp 0 0 50 0 0 exPinned rfl).1 (by norm_num [exPinned])

/-- Counterexample to claim C7 as stated: event A (non-forced, at t = 1000,
threat 300 px from the center, beyond the 160 px danger radius) is
discarded — the button is only pinned at its layout spot (100, 100) and does
not move — yet it resets the cooldown window; event B (non-forced, at
t = 1100, 10 px from the center, well inside the danger radius) is throttled
although the last position-changing event is infinitely old (lastMove was 0
and 1100 − 0 ≥ 120).  The window is therefore measured from a discarded
event.  exHyp agrees with Math.hypot at every point these runs evaluate it
(always one zero argument). -/
theorem claim7_counterexample :
    runAwayFrom exEnv exHyp (-160) 120 false 1000 (1/2) (1/2) initialNo =
      { isFixed := true, hidden := false, left := 100, top := 100, scale := 1,
        lastMove := 1000 } ∧
    runAwayFrom exEnv exHyp 130 120 false 1100 (1/2) (1/2)
        (runAwayFrom exEnv exHyp (-160) 120 false 1000 (1/2) (1/2) initialNo) =
      runAwayFrom exEnv exHyp (-160) 120 false 1000 (1/2) (1/2) initialNo ∧
    exHyp (140 - 130) (120 - 120) ≤ max 120 (min 210 (exEnv.btnW * 2)) ∧
    ¬ ((1100 : ℚ) - initialNo.lastMove < 120) := by
  have hA : runAwayFrom exEnv exHyp (-160) 120 false 1000 (1/2) (1/2) initialNo =
      { isFixed := true, hidden := false, left := 100, top := 100, scale := 1,
        lastMove := 1000 } := by
    norm_num [runAwayFrom, initialNo, exEnv, exHyp, makeFixedIfNeeded, getRect,
      boundsForRect, clampQ, preJitterDir, jitterDir, min_def, max_def]
  refine ⟨hA, ?_, by norm_num [exHyp, exEnv, min_def, max_def], by norm_num [initialNo]⟩
  rw [hA]
  norm_num [runAwayFrom]

/-- Claim C8: scale stays within [minScale, 1.0] = [0.55, 1], both shrink
operations multiply it by a factor strictly below 1 (0.90 for hover, 0.85
for press) floored at 0.55 and never increase it, every other operation
leaves scale unchanged, and restore() resets it to exactly 1. -/
theorem claim8_scale (s : NoState) (h : scaleInv s) :
    scaleInv (shrinkHover s) ∧ (shrinkHover s).scale ≤ s.scale ∧
    (s.hidden = false → (shrinkHover s).scale = max (55/100) (s.scale * (90/100))) ∧
    scaleInv (shrinkPress s) ∧ (shrinkPress s).scale ≤ s.scale ∧
    (s.hidden = false → (shrinkPress s).scale = max (55/100) (s.scale * (85/100))) ∧
    (restoreNo s).scale = 1 ∧ scaleInv (restoreNo s) ∧
    (hideNo s).scale = s.scale ∧
    (∀ env, (reclamp env s).scale = s.scale) ∧
    (∀ env hyp px py f now r1 r2,
      (runAwayFrom env hyp px py f now r1 r2 s).scale = s.scale) ∧
    scaleInv initialNo := by
  obtain ⟨h1, h2⟩ := h
  refine ⟨?_, ?_, ?_, ?_, ?_, ?_, ?_, ?_, ?_, ?_, ?_, ?_⟩
  · unfold shrinkHover scaleInv
    split_ifs
    · exact ⟨h1, h2⟩
    · constructor
      · exact le_max_left _ _
      · exact max_le (by norm_num) (by nlinarith)
  · unfold shrinkHover
    split_ifs
    · exact le_refl _
    · exact max_le h1 (by nlinarith)
  · intro hh
    unfold shrinkHover
    simp [hh]
  · unfold shrinkPress scaleInv
    split_ifs
    · exact ⟨h1, h2⟩
    · constructor
      · exact le_max_left _ _
      · exact max_le (by norm_num) (by nlinarith)
  · unfold shrinkPress
    split_ifs
    · exact le_refl _
    · exact max_le h1 (by nlinarith)
  · intro hh
    unfold shrinkPress
    simp [hh]
  · rfl
  · exact ⟨by norm_num [restoreNo], by norm_num [restoreNo]⟩
  · rfl
  · intro env
    unfold reclamp
    split_ifs <;> rfl
  · intro env hyp px py f now r1 r2
    simp only [runAwayFrom, makeFixedIfNeeded, getRect]
    split_ifs <;> rfl
  · exact ⟨by norm_num [initialNo], by norm_num [initialNo]⟩

/-- Witness for claim8_scale at the initial state. -/
theorem claim8_scale_witness : scaleInv (shrinkHover initialNo) :=
  (claim8_scale initialNo ⟨by norm_num [initialNo], by norm_num [initialNo]⟩).1

/-- advanceHeart adds dt to the age and keeps the lifetime. -/
theorem advanceHeart_t (dt : ℚ) (p : Heart2) : (advanceHeart dt p).t = p.t + dt := rfl

theorem advanceHeart_life (dt : ℚ) (p : Heart2) : (advanceHeart dt p).life = p.life := rfl

/-- Every survivor of one FX tick is the advanced image of a live particle
and passed the removal test. -/
theorem mem_fxTick {w h dt : ℚ} {hs : List Heart2} {q : Heart2}
    (hq : q ∈ fxTick w h dt hs) :
    ∃ p ∈ hs, q = advanceHeart dt p ∧ heartRemoved w h q = false := by
  simp only [fxTick] at hq
  rcases List.mem_filterMap.mp hq with ⟨p, hp, hf⟩
  by_cases hr : heartRemoved w h (advanceHeart dt p) = true
  · simp [hr] at hf
  · simp only [Bool.not_eq_true] at hr
    simp [hr] at hf
    obtain rfl := hf
    exact ⟨p, hp, rfl, hr⟩

/-- Every survivor of n FX ticks descends from an initially live particle:
its age grew by exactly n · dt, its lifetime is unchanged, and (when at
least one tick ran) it passed the removal test of the last tick. -/
theorem mem_fxSteps {w h dt : ℚ} {n : ℕ} {hs : List Heart2} {q : Heart2}
    (hq : q ∈ fxSteps w h dt n hs) :
    ∃ p ∈ hs, q.t = p.t + (n : ℚ) * dt ∧ q.life = p.life ∧
      (0 < n → heartRemoved w h q = false) := by
  induction n generalizing hs with
  | zero =>
    refine ⟨q, by simpa [fxSteps] using hq, by simp, rfl, fun hc => absurd hc (by omega)⟩
  | succ n ih =>
    simp only [fxSteps] at hq
    rcases ih hq with ⟨p1, hp1, ht, hl, hrem⟩
    rcases mem_fxTick hp1 with ⟨p, hp, hq1, hr1⟩
    refine ⟨p, hp, ?_, ?_, fun _ => ?_⟩
    · rw [ht, hq1, advanceHeart_t]
      push_cast
      ring
    · rw [hl, hq1, advanceHeart_life]
    · rcases Nat.eq_zero_or_pos n with hn | hn
      · subst hn
        simp only [fxSteps] at hq
        rcases mem_fxTick hq with ⟨p2, _, _, hr2⟩
        exact hr2
      · exact hrem hn

/-- Every particle pushed by spawnBurst starts at age 0 with a lifetime
drawn from [0.9, 1.35) when the random stream stays in [0, 1). -/
theorem mem_spawnBurst {w h : ℚ} {cx cy : Option ℚ} {count : ℕ}
    {cosA sinA : ℚ → ℚ} {rng : ℕ → ℚ} (hr : ∀ k, 0 ≤ rng k ∧ rng k < 1)
    {p : Heart2} (hp : p ∈ spawnBurst w h cx cy count cosA sinA rng) :
    p.t = 0 ∧ 9/10 ≤ p.life ∧ p.life < 27/20 := by
  simp only [spawnBurst, List.mem_map] at hp
  rcases hp with ⟨i, _, rfl⟩
  refine ⟨rfl, ?_, ?_⟩
  · have h1 := (hr (12 * i + 7)).1
    simp only [mkHeart, randIn]
    nlinarith
  · have h1 := (hr (12 * i + 7)).1
    have h2 := (hr (12 * i + 7)).2
    simp only [mkHeart, randIn]
    nlinarith

/-- Claim C4: a burst spawned at (400, 300) with count 100 and lifetimes in
[0.9, 1.35], stepped at dt = 1/60 until the total elapsed time n/60 exceeds
the maximum lifetime 1.35 s, is empty: every particle's fade
1 − age/lifetime has reached 0, so the removal test deleted it. -/
theorem claim4_burst_empties (w h : ℚ) (rng : ℕ → ℚ) (cosA sinA : ℚ → ℚ)
    (n : ℕ) (hr : ∀ k, 0 ≤ rng k ∧ rng k < 1)
    (hn : (27/20 : ℚ) < (n : ℚ) * (1/60)) :
    fxIsEmpty (fxSteps w h (1/60) n
      (spawnBurst w h (some 400) (some 300) 100 cosA sinA rng)) = true := by
  have hempty : fxSteps w h (1/60) n
      (spawnBurst w h (some 400) (some 300) 100 cosA sinA rng) = [] := by
    rw [List.eq_nil_iff_forall_not_mem]
    intro q hq
    rcases mem_fxSteps hq with ⟨p, hp, ht, hl, hrem⟩
    rcases mem_spawnBurst hr hp with ⟨ht0, hl1, hl2⟩
    have hn0 : 0 < n := by
      rcases Nat.eq_zero_or_pos n with hz | hz
      · subst hz
        norm_num at hn
      · exact hz
    have hflag := hrem hn0
    have hlife : 0 < q.life := by
      rw [hl]
      linarith
    have hfade : ¬ (1 - q.t / q.life ≤ 0) := by
      intro hcon
      have : heartRemoved w h q = true := by
        simp [heartRemoved, hcon]
      rw [this] at hflag
      exact absurd hflag (by simp)
    have hq1 : q.t / q.life < 1 := by linarith
    have hq2 : q.t < q.life := (div_lt_one hlife).mp hq1
    rw [ht, ht0, hl] at *
    linarith
  rw [hempty]
  rfl

/-- Witness for claim4_burst_empties: the all-zero random stream (every
lifetime 0.9 s) with 82 steps of 1/60 s (total 82/60 > 1.35 s). -/
theorem claim4_burst_empties_witness :
    fxIsEmpty (fxSteps 800 600 (1/60) 82
      (spawnBurst 800 600 (some 400) (some 300) 100 zeroFun zeroFun zeroStream)) = true :=
  claim4_burst_empties 800 600 zeroStream zeroFun zeroFun 82
    (fun _ => ⟨by norm_num [zeroStream], by norm_num [zeroStream]⟩) (by norm_num)

/-- Claim C10: the off-screen removal test checks only the bottom margin
(y > h + 120) and the side margins (x < −140, x > w + 140) — there is no
top margin, so a particle arbitrarily far above the viewport survives the
tick as long as its fade is still positive and it is inside the other three
margins. -/
theorem claim10_no_top_margin (w h dt : ℚ) (hs : List Heart2) (p : Heart2)
    (hmem : p ∈ hs) (_hlife : 0 < p.life)
    (hfade : (advanceHeart dt p).t / p.life < 1)
    (hy : (advanceHeart dt p).y ≤ h + 120)
    (hx1 : -140 ≤ (advanceHeart dt p).x)
    (hx2 : (advanceHeart dt p).x ≤ w + 140) :
    advanceHeart dt p ∈ fxTick w h dt hs ∧
    heartRemoved w h (advanceHeart dt p) = false := by
  have hfade2 : ¬ (1 - (advanceHeart dt p).t / (advanceHeart dt p).life ≤ 0) := by
    rw [advanceHeart_life]
    have : (advanceHeart dt p).t / p.life < 1 := hfade
    linarith
  have hrem : heartRemoved w h (advanceHeart dt p) = false := by
    simp only [heartRemoved, Bool.or_eq_false_iff, decide_eq_false_iff_not]
    refine ⟨⟨⟨hfade2, ?_⟩, ?_⟩, ?_⟩
    · linarith
    · linarith
    · linarith
  refine ⟨?_, hrem⟩
  simp only [fxTick]
  apply List.mem_filterMap.mpr
  refine ⟨p, hmem, ?_⟩
  simp [hrem]

/-- Witness for claim10_no_top_margin: a particle 10050 px above the top
edge of a 800×600 viewport, with age 1/60 far below its 1 s lifetime,
survives the tick. -/
theorem claim10_no_top_margin_witness :
    advanceHeart (1/60) topP ∈ fxTick 800 600 (1/60) [topP] ∧
    heartRemoved 800 600 (advanceHeart (1/60) topP) = false :=
  claim10_no_top_margin 800 600 (1/60) [topP] topP (by simp) (by norm_num [topP])
    (by norm_num [advanceHeart, topP]) (by norm_num [advanceHeart, topP])
    (by norm_num [advanceHeart, topP]) (by norm_num [advanceHeart, topP])

end Valentine

